import Mathlib

/-!
Verification of the touch-input decoding subsystem of this repository
(`src/input.rs`): the per-slot multitouch Protocol-B state machine, the
single-touch Protocol-A fallback, the coordinate mapper and the axis-range
prober, shallowly embedded in Lean.  `f32` arithmetic is modelled exactly
over `ℚ`; `i32`/`u16` kernel-record fields are modelled as `Int`/`Nat`.
Definitions follow the Rust source line by line and keep its names.
-/

namespace TouchInput

/-! ### Constants from `src/input.rs` -/

def EV_SYN : Nat := 0x00
def EV_ABS : Nat := 0x03
def EV_KEY : Nat := 0x01

def ABS_MT_SLOT : Nat := 0x2f
def ABS_MT_TRACKING_ID : Nat := 0x39
def ABS_MT_POSITION_X : Nat := 0x35
def ABS_MT_POSITION_Y : Nat := 0x36

def ABS_X : Nat := 0x00
def ABS_Y : Nat := 0x01

def SYN_REPORT : Nat := 0x00

def BTN_TOUCH : Nat := 0x14a

def MAX_SLOTS : Nat := 10

/-! ### Kernel input record (`struct InputEvent`); the two timestamp fields
never influence decoding and are omitted. -/

structure InputEvent where
  event_type : Nat
  code : Nat
  value : Int
deriving DecidableEq, Repr

/-! ### Slot state (`struct SlotState`) -/

structure SlotState where
  tracking_id : Int
  prev_tracking_id : Int
  x : Int
  y : Int
  has_pos : Bool
deriving DecidableEq, Repr

def SlotState.default : SlotState :=
  { tracking_id := -1, prev_tracking_id := -1, x := 0, y := 0, has_pos := false }

/-! ### Coordinate mapper (`struct CoordMapper`) -/

structure CoordMapper where
  raw_x_min : Int
  raw_x_max : Int
  raw_y_min : Int
  raw_y_max : Int
  swap_xy : Bool
  flip_x : Bool
  flip_y : Bool
deriving DecidableEq, Repr

/-- Embedding of `CoordMapper::new`.  Spans are `(hi - lo).max(1) as f32`;
the source compares `sensor_x_span < sensor_y_span` and
`screen_w < screen_h` (both strictly-less), then takes the flip pair from a
match on `display_rotation` with default `(false, false)`. -/
def CoordMapper.new (ioctl_x : Int × Int) (ioctl_y : Int × Int)
    (screen_w screen_h : ℚ) (display_rotation : Int) : CoordMapper :=
  let sensor_x_span : ℚ := ((max (ioctl_x.2 - ioctl_x.1) 1 : Int) : ℚ)
  let sensor_y_span : ℚ := ((max (ioctl_y.2 - ioctl_y.1) 1 : Int) : ℚ)
  let sensor_is_landscape : Bool := decide (sensor_x_span < sensor_y_span)
  let screen_is_landscape : Bool := decide (screen_w < screen_h)
  let swap_xy : Bool := sensor_is_landscape != screen_is_landscape
  let fl : Bool × Bool :=
    if display_rotation = 0 then (false, false)
    else if display_rotation = 1 then (false, true)
    else if display_rotation = 2 then (true, true)
    else if display_rotation = 3 then (true, false)
    else (false, false)
  { raw_x_min := ioctl_x.1, raw_x_max := ioctl_x.2
    raw_y_min := ioctl_y.1, raw_y_max := ioctl_y.2
    swap_xy := swap_xy, flip_x := fl.1, flip_y := fl.2 }

/-- Embedding of `CoordMapper::to_screen`: normalize to `[0,1]` with span
floored at 1, swap when `swap_xy`, then flip each axis with `1 - v`, then
scale by the screen dimensions. -/
def CoordMapper.to_screen (m : CoordMapper) (raw_x raw_y : Int)
    (screen_w screen_h : ℚ) : ℚ × ℚ :=
  let x_span : ℚ := ((max (m.raw_x_max - m.raw_x_min) 1 : Int) : ℚ)
  let y_span : ℚ := ((max (m.raw_y_max - m.raw_y_min) 1 : Int) : ℚ)
  let nx : ℚ := ((raw_x - m.raw_x_min : Int) : ℚ) / x_span
  let ny : ℚ := ((raw_y - m.raw_y_min : Int) : ℚ) / y_span
  let px0 : ℚ := if m.swap_xy then ny else nx
  let py0 : ℚ := if m.swap_xy then nx else ny
  let px : ℚ := if m.flip_x then 1 - px0 else px0
  let py : ℚ := if m.flip_y then 1 - py0 else py0
  (px * screen_w, py * screen_h)

/-! ### Axis range prober (`read_abs_range`) -/

structure AbsInfo where
  value : Int
  minimum : Int
  maximum : Int
  fuzz : Int
  flat : Int
  resolution : Int
deriving DecidableEq, Repr

/-- Embedding of `read_abs_range`.  The `EVIOCGABS` ioctl is external
state; it is modelled as an oracle `query`: `none` when the ioctl returned
non-zero, `some info` when it succeeded and filled `info`.  The source
returns `Some((minimum, maximum))` iff the ioctl succeeded and
`maximum > minimum`. -/
def read_abs_range (query : Option AbsInfo) : Option (Int × Int) :=
  match query with
  | none => none
  | some info =>
      if info.maximum > info.minimum then some (info.minimum, info.maximum)
      else none

/-! ### Output events (the `egui::Event` values the thread pushes) -/

inductive TouchPhase where
  | Start
  | Move
  | End
  | Cancel
deriving DecidableEq, Repr

/-- Output event vocabulary actually produced by `start_input_thread`:
touch events, pointer motion, the primary pointer button and pointer-gone.
Positions are rational pairs (exact model of `egui::Pos2`). -/
inductive EguiEvent where
  | Touch (device_id : Nat) (id : Nat) (phase : TouchPhase) (pos : ℚ × ℚ)
      (force : Option ℚ)
  | PointerMoved (pos : ℚ × ℚ)
  | PointerButton (pos : ℚ × ℚ) (pressed : Bool)
  | PointerGone
deriving DecidableEq, Repr

def isTouch : EguiEvent → Bool
  | EguiEvent.Touch _ _ _ _ _ => true
  | _ => false

/-- Extract phase and position of a touch event, used to state claims about
the touch stream irrespective of the interleaved pointer-proxy events. -/
def touchData : EguiEvent → Option (TouchPhase × (ℚ × ℚ))
  | EguiEvent.Touch _ _ ph pos _ => some (ph, pos)
  | _ => none

/-! ### Per-device mutable state of the dispatch loop -/

structure DevState where
  slots : List SlotState
  current_slot : Nat
  st_x : Int
  st_y : Int
  st_down : Bool
  st_was_down : Bool
deriving DecidableEq, Repr

def initDevState : DevState :=
  { slots := List.replicate MAX_SLOTS SlotState.default, current_slot := 0
    st_x := 0, st_y := 0, st_down := false, st_was_down := false }

/-- In-place update of one slot of the slot table
(`slots[dev_idx][slot] = ...`). -/
def updateSlot : List SlotState → Nat → (SlotState → SlotState) → List SlotState
  | [], _, _ => []
  | s :: rest, 0, f => f s :: rest
  | s :: rest, i + 1, f => s :: updateSlot rest i f

/-- Embedding of the per-slot body of the `EV_SYN` loop
(`for slot_idx in 0..MAX_SLOTS`): derive the phase from
`prev_tracking_id` / `tracking_id` / `has_pos`, defer a non-End phase when
no position is known (setting `prev_tracking_id` and skipping the rest of
the body), otherwise emit the touch event plus, for the primary slot, the
pointer-proxy events, then commit `prev_tracking_id` and clear `has_pos`.
Returns the updated slot, the events it contributed, and the updated
`primary_slot_handled` flag. -/
def processSlot (m : CoordMapper) (sw sh : ℚ) (dev_idx slot_idx : Nat)
    (slot : SlotState) (primary_handled : Bool) :
    SlotState × List EguiEvent × Bool :=
  let cur_tid := slot.tracking_id
  let prev_tid := slot.prev_tracking_id
  let phase : Option TouchPhase :=
    if prev_tid < 0 ∧ 0 ≤ cur_tid then some TouchPhase.Start
    else if 0 ≤ prev_tid ∧ cur_tid < 0 then some TouchPhase.End
    else if 0 ≤ cur_tid ∧ slot.has_pos = true then some TouchPhase.Move
    else none
  match phase with
  | none =>
      ({ slot with prev_tracking_id := cur_tid, has_pos := false }, [], primary_handled)
  | some ph =>
      if slot.has_pos = false ∧ ph ≠ TouchPhase.End then
        ({ slot with prev_tracking_id := cur_tid }, [], primary_handled)
      else
        let pos := m.to_screen slot.x slot.y sw sh
        let touch_id := dev_idx * 1000 + slot_idx
        let touchEvt := EguiEvent.Touch dev_idx touch_id ph pos (some 1)
        let pe : List EguiEvent × Bool :=
          if slot_idx = 0 ∨ primary_handled = false then
            (match ph with
             | TouchPhase.Start =>
                 [EguiEvent.PointerMoved pos, EguiEvent.PointerButton pos true]
             | TouchPhase.Move => [EguiEvent.PointerMoved pos]
             | TouchPhase.End =>
                 [EguiEvent.PointerButton pos false, EguiEvent.PointerGone]
             | TouchPhase.Cancel =>
                 [EguiEvent.PointerButton pos false, EguiEvent.PointerGone],
             true)
          else ([], primary_handled)
        ({ slot with prev_tracking_id := cur_tid, has_pos := false },
         touchEvt :: pe.1, pe.2)

/-- Fold of `processSlot` over the slot table in ascending index order,
threading the `primary_slot_handled` flag and concatenating events. -/
def processSlots (m : CoordMapper) (sw sh : ℚ) (dev_idx : Nat) :
    List SlotState → Nat → Bool → List SlotState × List EguiEvent × Bool
  | [], _, handled => ([], [], handled)
  | s :: rest, idx, handled =>
      let r := processSlot m sw sh dev_idx idx s handled
      let rr := processSlots m sw sh dev_idx rest (idx + 1) r.2.2
      (r.1 :: rr.1, r.2.1 ++ rr.2.1, rr.2.2)

/-- Embedding of the Protocol-A single-touch fallback block (run only when
`primary_slot_handled` is false).  Returns its events and the new
`st_was_down` value. -/
def processFallback (m : CoordMapper) (sw sh : ℚ) (dev_idx : Nat)
    (st : DevState) : List EguiEvent × Bool :=
  let pos := m.to_screen st.st_x st.st_y sw sh
  let now_down := st.st_down
  let was_down := st.st_was_down
  let evts : List EguiEvent :=
    if now_down = true ∧ was_down = false then
      [EguiEvent.Touch dev_idx (dev_idx * 1000) TouchPhase.Start pos (some 1),
       EguiEvent.PointerMoved pos,
       EguiEvent.PointerButton pos true]
    else if now_down = true then
      [EguiEvent.Touch dev_idx (dev_idx * 1000) TouchPhase.Move pos (some 1),
       EguiEvent.PointerMoved pos]
    else if now_down = false ∧ was_down = true then
      [EguiEvent.Touch dev_idx (dev_idx * 1000) TouchPhase.End pos (some 1),
       EguiEvent.PointerButton pos false,
       EguiEvent.PointerGone]
    else []
  (evts, now_down)

/-- Embedding of the `EV_SYN`/`SYN_REPORT` handler: process all multitouch
slots, then run the Protocol-A fallback only when no slot produced a
touch event (`primary_slot_handled` still false); the fallback also
updates `st_was_down`. -/
def processSyn (m : CoordMapper) (sw sh : ℚ) (dev_idx : Nat)
    (st : DevState) : DevState × List EguiEvent :=
  let r := processSlots m sw sh dev_idx st.slots 0 false
  if r.2.2 = true then
    ({ st with slots := r.1 }, r.2.1)
  else
    let fb := processFallback m sw sh dev_idx st
    ({ st with slots := r.1, st_was_down := fb.2 }, r.2.1 ++ fb.1)

/-- Embedding of the per-record dispatch (`match evt.event_type`).  The
`ABS_MT_SLOT` value is a `i32` cast to `usize` (64-bit wrap), then checked
against `MAX_SLOTS`.  Returns the new device state and the events this
record caused (non-empty only for a `SYN_REPORT`). -/
def processEvent (m : CoordMapper) (sw sh : ℚ) (dev_idx : Nat)
    (st : DevState) (evt : InputEvent) : DevState × List EguiEvent :=
  if evt.event_type = EV_ABS then
    let slot := st.current_slot
    if evt.code = ABS_MT_SLOT then
      let s : Nat := (evt.value % (2 : Int) ^ 64).toNat
      if s < MAX_SLOTS then ({ st with current_slot := s }, []) else (st, [])
    else if evt.code = ABS_MT_TRACKING_ID then
      let slots' := updateSlot st.slots slot
        (fun sl => { sl with tracking_id := evt.value })
      ({ st with slots := slots' }, [])
    else if evt.code = ABS_MT_POSITION_X then
      let slots' := updateSlot st.slots slot
        (fun sl => { sl with x := evt.value, has_pos := true })
      ({ st with slots := slots' }, [])
    else if evt.code = ABS_MT_POSITION_Y then
      let slots' := updateSlot st.slots slot
        (fun sl => { sl with y := evt.value })
      ({ st with slots := slots' }, [])
    else if evt.code = ABS_X then ({ st with st_x := evt.value }, [])
    else if evt.code = ABS_Y then ({ st with st_y := evt.value }, [])
    else (st, [])
  else if evt.event_type = EV_KEY then
    if evt.code = BTN_TOUCH then
      ({ st with st_down := evt.value != 0 }, [])
    else (st, [])
  else if evt.event_type = EV_SYN then
    if evt.code = SYN_REPORT then processSyn m sw sh dev_idx st
    else (st, [])
  else (st, [])

/-- Run a whole raw record sequence through one device's state, collecting
the batches sent on the channel (a batch is sent only when non-empty). -/
def processEvents (m : CoordMapper) (sw sh : ℚ) (dev_idx : Nat)
    (st : DevState) : List InputEvent → DevState × List (List EguiEvent)
  | [] => (st, [])
  | e :: rest =>
      let r := processEvent m sw sh dev_idx st e
      let rr := processEvents m sw sh dev_idx r.1 rest
      (rr.1, if r.2.isEmpty then rr.2 else r.2 :: rr.2)

/-! ### Named raw record sequences used in the lifecycle claims -/

/-- Raw sequence of §8: `tracking_id=5, x=100, y=200`, sync, `tracking_id=-1`, sync. -/
def lifecycleSeq : List InputEvent :=
  [⟨EV_ABS, ABS_MT_TRACKING_ID, 5⟩, ⟨EV_ABS, ABS_MT_POSITION_X, 100⟩,
   ⟨EV_ABS, ABS_MT_POSITION_Y, 200⟩, ⟨EV_SYN, SYN_REPORT, 0⟩,
   ⟨EV_ABS, ABS_MT_TRACKING_ID, -1⟩, ⟨EV_SYN, SYN_REPORT, 0⟩]

/-- Raw sequence for the deferred-Start scenario: a tracking id arrives in a
frame with no position, then the position arrives in the next frame. -/
def deferSeq : List InputEvent :=
  [⟨EV_ABS, ABS_MT_TRACKING_ID, 5⟩, ⟨EV_SYN, SYN_REPORT, 0⟩,
   ⟨EV_ABS, ABS_MT_POSITION_X, 100⟩, ⟨EV_ABS, ABS_MT_POSITION_Y, 200⟩,
   ⟨EV_SYN, SYN_REPORT, 0⟩]

/-- Raw prefix establishing an occupied slot with a committed position. -/
def occupiedSeq : List InputEvent :=
  [⟨EV_ABS, ABS_MT_TRACKING_ID, 5⟩, ⟨EV_ABS, ABS_MT_POSITION_X, 100⟩,
   ⟨EV_ABS, ABS_MT_POSITION_Y, 200⟩, ⟨EV_SYN, SYN_REPORT, 0⟩]

/-- Occupied slot followed by a Y-position-only frame. -/
def yOnlySeq : List InputEvent :=
  occupiedSeq ++ [⟨EV_ABS, ABS_MT_POSITION_Y, 300⟩, ⟨EV_SYN, SYN_REPORT, 0⟩]

/-- Convention the specification prescribes for the swap flag: landscape
means the strictly longer dimension, for the sensor spans and the surface
alike (`sensor_is_landscape := x_span > y_span`,
`surface_is_landscape := surface_w > surface_h`).  This definition follows
the spec's words, to be compared against `CoordMapper.new`. -/
def swap_xy_longer_dim_convention (ioctl_x ioctl_y : Int × Int)
    (screen_w screen_h : ℚ) : Bool :=
  let sensor_x_span : ℚ := ((max (ioctl_x.2 - ioctl_x.1) 1 : Int) : ℚ)
  let sensor_y_span : ℚ := ((max (ioctl_y.2 - ioctl_y.1) 1 : Int) : ℚ)
  (decide (sensor_x_span > sensor_y_span)) != (decide (screen_w > screen_h))

end TouchInput

namespace TouchInput

/-! ### Theorems for the claims -/

/-- C7: feeding a fresh slot state machine `tracking_id=5, x=100, y=200`,
a sync boundary, `tracking_id=-1`, a sync boundary produces exactly one
`Start` at the mapped position of raw `(100,200)` on the first boundary and
exactly one `End` on the second, with no `Move` anywhere in the sequence —
for any mapper and surface size. -/
theorem lifecycle_start_then_end (m : CoordMapper) (sw sh : ℚ) :
    ((processEvents m sw sh 0 initDevState lifecycleSeq).2).map
        (fun b => b.filterMap touchData) =
      [[(TouchPhase.Start, m.to_screen 100 200 sw sh)],
       [(TouchPhase.End, m.to_screen 100 200 sw sh)]] := rfl

/-- C1: the code evaluated on the deferred-Start scenario.  The slot's
tracking id goes `-1 → 5` in a frame with no position; the code emits
nothing at that boundary (correct), but because the deferred path already
commits `prev_tracking_id`, the first event emitted once a position is
supplied is `Move`, not `Start` — contradicting the spec's deferral rule
and the source's own comment that a `-1 → ≥0` transition emits `Start`. -/
theorem deferred_start_emits_move (m : CoordMapper) (sw sh : ℚ) :
    ((processEvents m sw sh 0 initDevState deferSeq).2).map
        (fun b => b.filterMap touchData) =
      [[(TouchPhase.Move, m.to_screen 100 200 sw sh)]] := rfl

/-- C2: the code evaluated on a Y-position-only frame for a slot that stays
occupied.  The `ABS_MT_POSITION_Y` arm updates `y` but never sets
`has_pos`, so the fresh-position flag stays `false` and no `Move` is
emitted at the boundary — contradicting the spec's rule that any position
field write sets the flag, and the source's own comment on `has_pos`. -/
theorem y_only_write_ignored (m : CoordMapper) (sw sh : ℚ) :
    (((processEvents m sw sh 0 initDevState
        (occupiedSeq ++ [⟨EV_ABS, ABS_MT_POSITION_Y, 300⟩])).1.slots.getD 0
          SlotState.default).has_pos = false) ∧
    ((processEvents m sw sh 0 initDevState yOnlySeq).2).map
        (fun b => b.filterMap touchData) =
      [[(TouchPhase.Start, m.to_screen 100 200 sw sh)]] := ⟨rfl, rfl⟩

/-- Helper: on a tie-free pair, the strictly-less decide is the negation of
the strictly-greater decide. -/
theorem decide_lt_flip {x y : ℚ} (h : x ≠ y) :
    (decide (x < y)) = !(decide (y < x)) := by
  rcases lt_or_gt_of_ne h with h' | h'
  · rw [decide_eq_true h', decide_eq_false (lt_asymm h')]; rfl
  · rw [decide_eq_false (lt_asymm h'), decide_eq_true h']; rfl

/-- C3 amended: the source derives `swap_xy` with strictly-less comparisons
on both sides, `(x_span < y_span) != (surface_w < surface_h)`; this
coincides with the claimed longer-dimension convention whenever neither the
spans nor the surface dimensions tie, and (by the counterexample) differs
at ties. -/
theorem swap_xy_strict_less_characterization (ioctl_x ioctl_y : Int × Int)
    (sw sh : ℚ) (r : Int) :
    ((CoordMapper.new ioctl_x ioctl_y sw sh r).swap_xy
      = ((decide (((max (ioctl_x.2 - ioctl_x.1) 1 : Int) : ℚ)
            < ((max (ioctl_y.2 - ioctl_y.1) 1 : Int) : ℚ)))
          != (decide (sw < sh)))) ∧
    (max (ioctl_x.2 - ioctl_x.1) 1 ≠ max (ioctl_y.2 - ioctl_y.1) 1 →
      sw ≠ sh →
      (CoordMapper.new ioctl_x ioctl_y sw sh r).swap_xy
        = swap_xy_longer_dim_convention ioctl_x ioctl_y sw sh) := by
  constructor
  · rfl
  · intro hspan hsurf
    have hcast : ((max (ioctl_x.2 - ioctl_x.1) 1 : Int) : ℚ)
        ≠ ((max (ioctl_y.2 - ioctl_y.1) 1 : Int) : ℚ) := by
      exact_mod_cast hspan
    show (decide _ != decide _) = (decide _ != decide _)
    rw [decide_lt_flip hcast, decide_lt_flip hsurf]
    cases hb : decide (((max (ioctl_y.2 - ioctl_y.1) 1 : Int) : ℚ)
        < ((max (ioctl_x.2 - ioctl_x.1) 1 : Int) : ℚ)) <;>
      cases hc : decide (sh < sw) <;> rfl

/-- C3 amended witness: a tie-free instance, spans 2 vs 1 and surface 2×1. -/
theorem swap_xy_strict_less_witness :
    (CoordMapper.new (0, 2) (0, 1) 2 1 0).swap_xy
      = swap_xy_longer_dim_convention (0, 2) (0, 1) 2 1 :=
  (swap_xy_strict_less_characterization (0, 2) (0, 1) 2 1 0).2
    (by decide) (by decide)

/-- C3 counterexample: a square sensor (spans tie) with a portrait surface.
The source computes `swap_xy` from strictly-less comparisons, yielding
`true`, while the claimed longer-dimension convention yields `false`. -/
theorem swap_xy_tie_counterexample :
    (CoordMapper.new (0, 100) (0, 100) 1080 2400 0).swap_xy = true ∧
    swap_xy_longer_dim_convention (0, 100) (0, 100) 1080 2400 = false := by
  constructor <;> decide

/-- C6: the flip flags are a pure lookup on the rotation code —
`0→(false,false)`, `1→(false,true)`, `2→(true,true)`, `3→(true,false)` —
any other rotation code yields the same mapper as rotation `0`, and
rotations `1` and `3` are each other's complement (each setting exactly
one flip). -/
theorem rotation_flip_table (rx ry : Int × Int) (sw sh : ℚ) (r : Int) :
    ((CoordMapper.new rx ry sw sh 0).flip_x = false ∧
      (CoordMapper.new rx ry sw sh 0).flip_y = false) ∧
    ((CoordMapper.new rx ry sw sh 1).flip_x = false ∧
      (CoordMapper.new rx ry sw sh 1).flip_y = true) ∧
    ((CoordMapper.new rx ry sw sh 2).flip_x = true ∧
      (CoordMapper.new rx ry sw sh 2).flip_y = true) ∧
    ((CoordMapper.new rx ry sw sh 3).flip_x = true ∧
      (CoordMapper.new rx ry sw sh 3).flip_y = false) ∧
    (r ≠ 0 → r ≠ 1 → r ≠ 2 → r ≠ 3 →
      CoordMapper.new rx ry sw sh r = CoordMapper.new rx ry sw sh 0) ∧
    ((CoordMapper.new rx ry sw sh 1).flip_x
        = !(CoordMapper.new rx ry sw sh 3).flip_x ∧
      (CoordMapper.new rx ry sw sh 1).flip_y
        = !(CoordMapper.new rx ry sw sh 3).flip_y) := by
  refine ⟨⟨rfl, rfl⟩, ⟨rfl, rfl⟩, ⟨rfl, rfl⟩, ⟨rfl, rfl⟩, ?_, rfl, rfl⟩
  intro h0 h1 h2 h3
  simp only [CoordMapper.new, if_neg h0, if_neg h1, if_neg h2, if_neg h3]
  simp

/-- C6 witness: rotation code `7` yields the same mapper as rotation `0`. -/
theorem rotation_flip_table_witness :
    CoordMapper.new (0, 1) (0, 2) 2 1 7 = CoordMapper.new (0, 1) (0, 2) 2 1 0 :=
  (rotation_flip_table (0, 1) (0, 2) 2 1 7).2.2.2.2.1
    (by decide) (by decide) (by decide) (by decide)

/-- C9: the axis-range probe returns `none` exactly when the ioctl query
fails or the reported range has `maximum ≤ minimum`, and otherwise returns
`some (minimum, maximum)` as reported by the driver. -/
theorem read_abs_range_contract (q : Option AbsInfo) :
    (read_abs_range q = none ↔
      q = none ∨ ∃ info, q = some info ∧ info.maximum ≤ info.minimum) ∧
    (∀ info, q = some info → info.minimum < info.maximum →
      read_abs_range q = some (info.minimum, info.maximum)) := by
  cases q with
  | none =>
      refine ⟨by simp [read_abs_range], ?_⟩
      intro info h
      cases h
  | some info =>
      constructor
      · by_cases h : info.minimum < info.maximum
        · simp [read_abs_range, h, not_le_of_lt h]
        · simp [read_abs_range, h, le_of_not_lt h]
      · intro i hi hlt
        cases hi
        simp [read_abs_range, hlt]

/-- Helper for C5: the normalized coordinate `(v - lo) / max (hi - lo) 1`
lies in `[0, 1]` when `lo < hi` and `lo ≤ v ≤ hi`. -/
theorem norm_coord_bounds (lo hi v : Int) (_h1 : lo < hi) (h2 : lo ≤ v)
    (h3 : v ≤ hi) :
    0 ≤ ((v - lo : Int) : ℚ) / ((max (hi - lo) 1 : Int) : ℚ) ∧
      ((v - lo : Int) : ℚ) / ((max (hi - lo) 1 : Int) : ℚ) ≤ 1 := by
  have hspan : (0 : ℚ) < ((max (hi - lo) 1 : Int) : ℚ) := by
    have h : (0 : Int) < max (hi - lo) 1 := lt_max_of_lt_right Int.one_pos
    exact_mod_cast h
  constructor
  · apply div_nonneg _ hspan.le
    have h : (0 : Int) ≤ v - lo := by omega
    exact_mod_cast h
  · rw [div_le_one hspan]
    have h : (v - lo : Int) ≤ max (hi - lo) 1 := by
      have : v - lo ≤ hi - lo := by omega
      exact le_trans this (le_max_left _ _)
    exact_mod_cast h

set_option maxHeartbeats 2000000 in
/-- C5: for any mapper whose stored axis ranges satisfy `max > min`, and
any raw input inside those ranges, `to_screen` lands in
`[0, screen_w] × [0, screen_h]` — for every combination of the `swap_xy`,
`flip_x`, `flip_y` flags. -/
theorem to_screen_bounded (m : CoordMapper) (sw sh : ℚ) (rx ry : Int)
    (hx : m.raw_x_min < m.raw_x_max) (hy : m.raw_y_min < m.raw_y_max)
    (hrx1 : m.raw_x_min ≤ rx) (hrx2 : rx ≤ m.raw_x_max)
    (hry1 : m.raw_y_min ≤ ry) (hry2 : ry ≤ m.raw_y_max)
    (hsw : 0 ≤ sw) (hsh : 0 ≤ sh) :
    0 ≤ (m.to_screen rx ry sw sh).1 ∧ (m.to_screen rx ry sw sh).1 ≤ sw ∧
      0 ≤ (m.to_screen rx ry sw sh).2 ∧ (m.to_screen rx ry sw sh).2 ≤ sh := by
  obtain ⟨hnx0, hnx1⟩ := norm_coord_bounds m.raw_x_min m.raw_x_max rx hx hrx1 hrx2
  obtain ⟨hny0, hny1⟩ := norm_coord_bounds m.raw_y_min m.raw_y_max ry hy hry1 hry2
  simp only [CoordMapper.to_screen]
  split_ifs <;>
    refine ⟨?_, ?_, ?_, ?_⟩ <;>
    first
      | exact mul_nonneg (by linarith) hsw
      | exact mul_le_of_le_one_left hsw (by linarith)
      | exact mul_nonneg (by linarith) hsh
      | exact mul_le_of_le_one_left hsh (by linarith)

/-- C5 witness: the unit device `[0,1] × [0,1]` on a `1 × 1` surface at the
raw corner `(0, 0)`. -/
theorem to_screen_bounded_witness :
    0 ≤ (CoordMapper.to_screen ⟨0, 1, 0, 1, false, false, false⟩ 0 0 1 1).1 ∧
      (CoordMapper.to_screen ⟨0, 1, 0, 1, false, false, false⟩ 0 0 1 1).1 ≤ 1 ∧
      0 ≤ (CoordMapper.to_screen ⟨0, 1, 0, 1, false, false, false⟩ 0 0 1 1).2 ∧
      (CoordMapper.to_screen ⟨0, 1, 0, 1, false, false, false⟩ 0 0 1 1).2 ≤ 1 :=
  to_screen_bounded ⟨0, 1, 0, 1, false, false, false⟩ 1 1 0 0 (by decide)
    (by decide) (by decide) (by decide) (by decide) (by decide) (by decide)
    (by decide)

/-- C9 witness: a successful query reporting the range `[0, 100]`. -/
theorem read_abs_range_contract_witness :
    read_abs_range (some ⟨0, 0, 100, 0, 0, 0⟩) = some (0, 100) :=
  (read_abs_range_contract (some ⟨0, 0, 100, 0, 0, 0⟩)).2
    ⟨0, 0, 100, 0, 0, 0⟩ rfl (by decide)

/-- Helper: after the per-slot boundary body, the slot's
`prev_tracking_id` equals its `tracking_id` and `has_pos` is clear — on
the normal commit path and on the deferred-phase path alike. -/
theorem processSlot_commits (m : CoordMapper) (sw sh : ℚ) (d i : Nat)
    (slot : SlotState) (h : Bool) :
    ((processSlot m sw sh d i slot h).1).prev_tracking_id
        = ((processSlot m sw sh d i slot h).1).tracking_id ∧
      ((processSlot m sw sh d i slot h).1).has_pos = false := by
  by_cases c1 : slot.prev_tracking_id < 0 ∧ 0 ≤ slot.tracking_id
  · by_cases hp : slot.has_pos = false
    · simp [processSlot, c1, hp]
    · simp [processSlot, c1, hp]
  · by_cases c2 : 0 ≤ slot.prev_tracking_id ∧ slot.tracking_id < 0
    · simp [processSlot, c1, c2]
    · by_cases c3 : 0 ≤ slot.tracking_id ∧ slot.has_pos = true
      · have hprev : ¬slot.prev_tracking_id < 0 := fun hp => c1 ⟨hp, c3.1⟩
        simp [processSlot, c1, c2, c3, c3.2, hprev]
      · simp [processSlot, c1, c2, c3]

/-- Helper: every slot in the output of the boundary fold is committed. -/
theorem processSlots_commits (m : CoordMapper) (sw sh : ℚ) (d : Nat) :
    ∀ (ls : List SlotState) (idx : Nat) (h : Bool),
      ∀ s ∈ (processSlots m sw sh d ls idx h).1,
        s.prev_tracking_id = s.tracking_id ∧ s.has_pos = false := by
  intro ls
  induction ls with
  | nil => intro idx h s hs; cases hs
  | cons a rest ih =>
      intro idx h s hs
      simp only [processSlots, List.mem_cons] at hs
      rcases hs with hs | hs
      · subst hs; exact processSlot_commits m sw sh d idx a h
      · exact ih (idx + 1) _ s hs

/-- C4: after processing any `SYN_REPORT` record, every slot of the device
satisfies `prev_tracking_id = tracking_id` and `has_pos = false`, no matter
how many raw field updates arrived before the boundary and including slots
that took the deferred-phase path. -/
theorem syn_commits_every_slot (m : CoordMapper) (sw sh : ℚ) (d : Nat)
    (st : DevState) (evt : InputEvent)
    (ht : evt.event_type = EV_SYN) (hc : evt.code = SYN_REPORT) :
    ∀ s ∈ ((processEvent m sw sh d st evt).1).slots,
      s.prev_tracking_id = s.tracking_id ∧ s.has_pos = false := by
  intro s hs
  have habs : ¬evt.event_type = EV_ABS := by rw [ht]; decide
  have hkey : ¬evt.event_type = EV_KEY := by rw [ht]; decide
  simp only [processEvent, if_neg habs, if_neg hkey, if_pos ht, if_pos hc] at hs
  simp only [processSyn] at hs
  split_ifs at hs <;>
    exact processSlots_commits m sw sh d st.slots 0 false s hs

/-- C4 witness: the default slot of a fresh device, after one boundary. -/
theorem syn_commits_every_slot_witness :
    SlotState.default.prev_tracking_id = SlotState.default.tracking_id ∧
      SlotState.default.has_pos = false :=
  syn_commits_every_slot ⟨0, 1, 0, 1, false, false, false⟩ 1 1 0 initDevState
    ⟨EV_SYN, SYN_REPORT, 0⟩ rfl rfl SlotState.default (by decide)

/-- Helper: the `primary_slot_handled` flag never goes from `true` back to
`false` within a boundary. -/
theorem processSlot_handled_mono (m : CoordMapper) (sw sh : ℚ) (d i : Nat)
    (slot : SlotState) :
    (processSlot m sw sh d i slot true).2.2 = true := by
  by_cases c1 : slot.prev_tracking_id < 0 ∧ 0 ≤ slot.tracking_id
  · by_cases hp : slot.has_pos = false
    · simp [processSlot, c1, hp]
    · simp [processSlot, c1, hp]
      split <;> rfl
  · by_cases c2 : 0 ≤ slot.prev_tracking_id ∧ slot.tracking_id < 0
    · simp [processSlot, c1, c2]
      split <;> rfl
    · by_cases c3 : 0 ≤ slot.tracking_id ∧ slot.has_pos = true
      · have hprev : ¬slot.prev_tracking_id < 0 := fun hp => c1 ⟨hp, c3.1⟩
        simp [processSlot, c1, c2, c3, c3.2, hprev]
        split <;> rfl
      · simp [processSlot, c1, c2, c3]

/-- Helper: a slot that contributed any event has set the
`primary_slot_handled` flag. -/
theorem processSlot_emit_handled (m : CoordMapper) (sw sh : ℚ) (d i : Nat)
    (slot : SlotState) (h : Bool) :
    (processSlot m sw sh d i slot h).2.1 ≠ [] →
      (processSlot m sw sh d i slot h).2.2 = true := by
  intro hne
  by_cases c1 : slot.prev_tracking_id < 0 ∧ 0 ≤ slot.tracking_id
  · by_cases hp : slot.has_pos = false
    · simp [processSlot, c1, hp] at hne
    · cases h
      · simp [processSlot, c1, hp]
      · exact processSlot_handled_mono m sw sh d i slot
  · by_cases c2 : 0 ≤ slot.prev_tracking_id ∧ slot.tracking_id < 0
    · cases h
      · simp [processSlot, c1, c2]
      · exact processSlot_handled_mono m sw sh d i slot
    · by_cases c3 : 0 ≤ slot.tracking_id ∧ slot.has_pos = true
      · cases h
        · have hprev : ¬slot.prev_tracking_id < 0 := fun hp => c1 ⟨hp, c3.1⟩
          simp [processSlot, c1, c2, c3, c3.2, hprev]
        · exact processSlot_handled_mono m sw sh d i slot
      · simp [processSlot, c1, c2, c3] at hne

/-- Helper: monotonicity of the handled flag across the whole fold. -/
theorem processSlots_handled_mono (m : CoordMapper) (sw sh : ℚ) (d : Nat) :
    ∀ (ls : List SlotState) (idx : Nat),
      (processSlots m sw sh d ls idx true).2.2 = true := by
  intro ls
  induction ls with
  | nil => intro idx; rfl
  | cons a rest ih =>
      intro idx
      simp only [processSlots]
      rw [processSlot_handled_mono m sw sh d idx a]
      exact ih (idx + 1)

/-- Helper: when the fold finishes with the handled flag still `false`, no
multitouch slot emitted any event this boundary. -/
theorem processSlots_unhandled_no_events (m : CoordMapper) (sw sh : ℚ)
    (d : Nat) :
    ∀ (ls : List SlotState) (idx : Nat) (h : Bool),
      (processSlots m sw sh d ls idx h).2.2 = false →
        (processSlots m sw sh d ls idx h).2.1 = [] := by
  intro ls
  induction ls with
  | nil => intro idx h _; rfl
  | cons a rest ih =>
      intro idx h hout
      simp only [processSlots] at hout ⊢
      have ha : (processSlot m sw sh d idx a h).2.1 = [] := by
        by_contra hne
        have h1 := processSlot_emit_handled m sw sh d idx a h hne
        rw [h1] at hout
        rw [processSlots_handled_mono m sw sh d rest (idx + 1)] at hout
        cases hout
      rw [ha, List.nil_append]
      exact ih (idx + 1) _ hout

/-- C8: if any multitouch slot emitted a touch event at a boundary, the
whole batch for that boundary is exactly the multitouch events — the
Protocol-A single-touch fallback contributes zero events. -/
theorem fallback_exclusive (m : CoordMapper) (sw sh : ℚ) (d : Nat)
    (st : DevState)
    (hT : ∃ e ∈ (processSlots m sw sh d st.slots 0 false).2.1, isTouch e = true) :
    (processSyn m sw sh d st).2 = (processSlots m sw sh d st.slots 0 false).2.1 := by
  obtain ⟨e, he, _⟩ := hT
  have hne : (processSlots m sw sh d st.slots 0 false).2.1 ≠ [] := by
    intro hnil
    rw [hnil] at he
    cases he
  have hh : (processSlots m sw sh d st.slots 0 false).2.2 = true := by
    by_cases hb : (processSlots m sw sh d st.slots 0 false).2.2 = true
    · exact hb
    · exact absurd (processSlots_unhandled_no_events m sw sh d st.slots 0 false
        (Bool.eq_false_iff.mpr hb)) hne
  simp [processSyn, hh]

/-- C8 witness: a device state whose slot 0 starts a touch this boundary
while the Protocol-A shadow state would, on its own, also report a press;
the batch nevertheless equals the multitouch events alone. -/
theorem fallback_exclusive_witness :
    (processSyn ⟨0, 1, 0, 1, false, false, false⟩ 1 1 0
        { slots := ⟨7, -1, 3, 4, true⟩ ::
            List.replicate 9 SlotState.default,
          current_slot := 0, st_x := 5, st_y := 6,
          st_down := true, st_was_down := false }).2 =
      (processSlots ⟨0, 1, 0, 1, false, false, false⟩ 1 1 0
        (⟨7, -1, 3, 4, true⟩ :: List.replicate 9 SlotState.default)
        0 false).2.1 :=
  fallback_exclusive ⟨0, 1, 0, 1, false, false, false⟩ 1 1 0
    { slots := ⟨7, -1, 3, 4, true⟩ :: List.replicate 9 SlotState.default,
      current_slot := 0, st_x := 5, st_y := 6,
      st_down := true, st_was_down := false }
    (by decide)

/-- Helper: updating one slot preserves the slot-table length. -/
theorem updateSlot_length (f : SlotState → SlotState) :
    ∀ (ls : List SlotState) (i : Nat), (updateSlot ls i f).length = ls.length := by
  intro ls
  induction ls with
  | nil => intro i; rfl
  | cons a rest ih =>
      intro i
      cases i with
      | zero => rfl
      | succ j => simpa [updateSlot] using ih j

/-- Helper: the boundary fold preserves the slot-table length. -/
theorem processSlots_length (m : CoordMapper) (sw sh : ℚ) (d : Nat) :
    ∀ (ls : List SlotState) (idx : Nat) (h : Bool),
      ((processSlots m sw sh d ls idx h).1).length = ls.length := by
  intro ls
  induction ls with
  | nil => intro idx h; rfl
  | cons a rest ih =>
      intro idx h
      simpa [processSlots] using ih (idx + 1) _

/-- C10: the decoder's current-slot index stays in `0..MAX_SLOTS-1` and the
slot table keeps its `MAX_SLOTS` length under every record, so the table
accesses of the tracking-id/position updates and of boundary processing
stay in bounds; an `ABS_MT_SLOT` record whose `i32` value is negative or
`≥ MAX_SLOTS` leaves the current slot unchanged (the negative case because
the cast to `usize` wraps far above `MAX_SLOTS`). -/
theorem current_slot_in_bounds (m : CoordMapper) (sw sh : ℚ) (d : Nat)
    (st : DevState) (evt : InputEvent)
    (hlen : st.slots.length = MAX_SLOTS) (hcur : st.current_slot < MAX_SLOTS)
    (hlo : -(2 ^ 31) ≤ evt.value) (hhi : evt.value < 2 ^ 31) :
    ((processEvent m sw sh d st evt).1.current_slot < MAX_SLOTS ∧
      (processEvent m sw sh d st evt).1.slots.length = MAX_SLOTS) ∧
    (evt.event_type = EV_ABS → evt.code = ABS_MT_SLOT →
      (evt.value < 0 ∨ 10 ≤ evt.value) →
      (processEvent m sw sh d st evt).1.current_slot = st.current_slot) := by
  have h64 : (2 : Int) ^ 64 = 18446744073709551616 := by norm_num
  have h31 : (2 : Int) ^ 31 = 2147483648 := by norm_num
  by_cases ht1 : evt.event_type = 3
  · by_cases hc1 : evt.code = 47
    · by_cases hs : (evt.value % (18446744073709551616 : Int)).toNat < MAX_SLOTS
      · refine ⟨by simp [processEvent, EV_ABS, ABS_MT_SLOT, ht1, hc1, h64, hs, hlen], ?_⟩
        intro _ _ hv
        exfalso
        rw [h31] at hlo hhi
        simp only [MAX_SLOTS] at hs
        omega
      · refine ⟨by simp [processEvent, EV_ABS, ABS_MT_SLOT, ht1, hc1, h64, hs,
          hcur, hlen], ?_⟩
        intro _ _ _
        simp [processEvent, EV_ABS, ABS_MT_SLOT, ht1, hc1, h64, hs]
    · have hsl : ∀ f, (updateSlot st.slots st.current_slot f).length = MAX_SLOTS :=
        fun f => (updateSlot_length f st.slots st.current_slot).trans hlen
      refine ⟨?_, fun _ hc => absurd hc hc1⟩
      by_cases hc2 : evt.code = 57
      · simp [processEvent, EV_ABS, ABS_MT_SLOT, ABS_MT_TRACKING_ID, ht1, hc1,
          hc2, hcur, hsl]
      · by_cases hc3 : evt.code = 53
        · simp [processEvent, EV_ABS, ABS_MT_SLOT, ABS_MT_TRACKING_ID,
            ABS_MT_POSITION_X, ht1, hc1, hc2, hc3, hcur, hsl]
        · by_cases hc4 : evt.code = 54
          · simp [processEvent, EV_ABS, ABS_MT_SLOT, ABS_MT_TRACKING_ID,
              ABS_MT_POSITION_X, ABS_MT_POSITION_Y, ht1, hc1, hc2, hc3, hc4,
              hcur, hsl]
          · by_cases hc5 : evt.code = 0
            · simp [processEvent, EV_ABS, ABS_MT_SLOT, ABS_MT_TRACKING_ID,
                ABS_MT_POSITION_X, ABS_MT_POSITION_Y, ABS_X, ht1, hc1, hc2, hc3,
                hc4, hc5, hcur, hlen]
            · by_cases hc6 : evt.code = 1
              · simp [processEvent, EV_ABS, ABS_MT_SLOT, ABS_MT_TRACKING_ID,
                  ABS_MT_POSITION_X, ABS_MT_POSITION_Y, ABS_X, ABS_Y, ht1, hc1,
                  hc2, hc3, hc4, hc5, hc6, hcur, hlen]
              · simp [processEvent, EV_ABS, ABS_MT_SLOT, ABS_MT_TRACKING_ID,
                  ABS_MT_POSITION_X, ABS_MT_POSITION_Y, ABS_X, ABS_Y, ht1, hc1,
                  hc2, hc3, hc4, hc5, hc6, hcur, hlen]
  · refine ⟨?_, fun ht => absurd ht ht1⟩
    by_cases ht2 : evt.event_type = 1
    · by_cases hk : evt.code = 330
      · simp [processEvent, EV_ABS, EV_KEY, BTN_TOUCH, ht1, ht2, hk, hcur, hlen]
      · simp [processEvent, EV_ABS, EV_KEY, BTN_TOUCH, ht1, ht2, hk, hcur, hlen]
    · by_cases ht3 : evt.event_type = 0
      · by_cases hr : evt.code = 0
        · have hpl := processSlots_length m sw sh d st.slots 0 false
          have hplen : ((processSlots m sw sh d st.slots 0 false).1).length
              = MAX_SLOTS := hpl.trans hlen
          simp only [processEvent, EV_ABS, EV_KEY, EV_SYN, SYN_REPORT,
            if_neg ht1, if_neg ht2, if_pos ht3, if_pos hr, processSyn]
          split_ifs <;> simp [hcur, hplen]
        · simp [processEvent, EV_ABS, EV_KEY, EV_SYN, SYN_REPORT, ht1, ht2, ht3,
            hr, hcur, hlen]
      · simp [processEvent, EV_ABS, EV_KEY, EV_SYN, ht1, ht2, ht3, hcur, hlen]

/-- C10 witness: an `ABS_MT_SLOT` record with negative value `-5` on a
fresh device leaves the current slot at `0` and everything in bounds. -/
theorem current_slot_in_bounds_witness :
    (((processEvent ⟨0, 1, 0, 1, false, false, false⟩ 1 1 0 initDevState
          ⟨EV_ABS, ABS_MT_SLOT, -5⟩).1.current_slot < MAX_SLOTS ∧
        (processEvent ⟨0, 1, 0, 1, false, false, false⟩ 1 1 0 initDevState
          ⟨EV_ABS, ABS_MT_SLOT, -5⟩).1.slots.length = MAX_SLOTS) ∧
      (InputEvent.event_type ⟨EV_ABS, ABS_MT_SLOT, -5⟩ = EV_ABS →
        InputEvent.code ⟨EV_ABS, ABS_MT_SLOT, -5⟩ = ABS_MT_SLOT →
        ((-5 : Int) < 0 ∨ 10 ≤ (-5 : Int)) →
        (processEvent ⟨0, 1, 0, 1, false, false, false⟩ 1 1 0 initDevState
          ⟨EV_ABS, ABS_MT_SLOT, -5⟩).1.current_slot =
          initDevState.current_slot)) :=
  current_slot_in_bounds ⟨0, 1, 0, 1, false, false, false⟩ 1 1 0 initDevState
    ⟨EV_ABS, ABS_MT_SLOT, -5⟩ (by decide) (by decide) (by decide) (by decide)

end TouchInput
